import Mathlib

/-!
Shallow embedding of `nessus_parser.py`: the XML extractor
(`parse_nessus_xml`), the per-host aggregation of severity counts, the
dashboard-chart builder (`create_dashboard_chart`) and the sheet layout of
`write_excel`, together with theorems checking the specification's claims
against these definitions.

Python dicts are modelled as association lists (or fixed-field structures
when the key set is fixed), missing XML attributes/elements as `Option`,
and Python exceptions as `Except String`.
-/

namespace NessusParser

/-- Models Python `int()` applied to a decimal string: optional surrounding
spaces, an optional single sign, then one or more ASCII digits; anything
else raises `ValueError`, modelled as `none`.  (Exotic accepted forms such
as underscore digit separators are not modelled.) -/
def digitsVal (ds : List Char) : Nat :=
  ds.foldl (fun a c => a * 10 + (c.toNat - 48)) 0

def pyInt (s : String) : Option Int :=
  let cs := ((s.toList.dropWhile (fun c => c == ' ')).reverse.dropWhile
      (fun c => c == ' ')).reverse
  match cs with
  | [] => none
  | c :: rest =>
    if c == '-' then
      if !rest.isEmpty && rest.all Char.isDigit then
        some (-(digitsVal rest : Int))
      else none
    else if c == '+' then
      if !rest.isEmpty && rest.all Char.isDigit then some (digitsVal rest)
      else none
    else if cs.all Char.isDigit then some (digitsVal cs) else none

/-- `SEVERITY_MAP` from the source, as a dict lookup (`dict.get`):
`{0: 'Info', 1: 'Low', 2: 'Medium', 3: 'High', 4: 'Critical'}`. -/
def SEVERITY_MAP (k : Int) : Option String :=
  if k = 0 then some "Info"
  else if k = 1 then some "Low"
  else if k = 2 then some "Medium"
  else if k = 3 then some "High"
  else if k = 4 then some "Critical"
  else none

/-- `SEVERITY_MAP.get(k, d)`. -/
def SEVERITY_MAP_getD (k : Int) (d : String) : String :=
  (SEVERITY_MAP k).getD d

/-- `COLORS` dict from the source. -/
def COLORS (label : String) : Option String :=
  if label = "Critical" then some "#D20F0F"
  else if label = "High" then some "#FF8000"
  else if label = "Medium" then some "#FFCC00"
  else if label = "Low" then some "#00CC00"
  else if label = "Info" then some "#0000FF"
  else none

/-- A `<tag>` element under `HostProperties`: its `name` attribute
(`attrib.get('name')`, `none` when absent) and its text content. -/
structure Tag where
  name : Option String
  text : Option String
deriving DecidableEq

/-- A `<ReportItem>` element: the attributes the source reads, plus its
child elements as (tag name, text) pairs in document order, used by
`findtext`. -/
structure ReportItem where
  pluginID : Option String
  pluginName : Option String
  pluginFamily : Option String
  severityAttr : Option String
  port : Option String
  protocol : Option String
  svc_name : Option String
  children : List (String × Option String)
deriving DecidableEq

/-- `item.findtext(path)`. ElementPath tokenization (lxml mirrors the
shared implementation) rejects a namespace-prefixed path such as
`cm:compliance-result` when no namespaces mapping is passed: it raises
`SyntaxError: prefix 'cm' not found in prefix map` while tokenizing the
path itself, before looking at any child. A plain path returns the text
of the first matching child, `none` when no child matches, and the empty
string when the child exists with no text. -/
def ReportItem.findtext (it : ReportItem) (tag : String) :
    Except String (Option String) :=
  if tag.toList.contains ':' then
    Except.error "SyntaxError: prefix not found in prefix map"
  else
    Except.ok ((it.children.find? (fun p => p.1 = tag)).map
      (fun p => p.2.getD ""))

/-- A `<ReportHost>` element: its optional `HostProperties` sub-tree and
its `ReportItem` children in document order. -/
structure ReportHost where
  hostProperties : Option (List Tag)
  reportItems : List ReportItem
deriving DecidableEq

/-- The parsed document: the optional top-level `<Report>` element with its
`<ReportHost>` children in document order. -/
structure NessusDoc where
  report : Option (List ReportHost)
deriving DecidableEq

/-- Python dict assignment `m[k] = v` on an association list: overwrite the
existing entry, else append. -/
def dictInsert (m : List (Option String × Option String)) (k : Option String)
    (v : Option String) : List (Option String × Option String) :=
  if m.any (fun p => p.1 = k) then
    m.map (fun p => if p.1 = k then (k, v) else p)
  else m ++ [(k, v)]

/-- The `host_props` dict: `for tag in host_properties.findall('tag'):
host_props[tag.attrib.get('name')] = tag.text`, empty when the
`HostProperties` sub-tree is absent. -/
def buildProps : Option (List Tag) → List (Option String × Option String)
  | none => []
  | some tags => tags.foldl (fun m t => dictInsert m t.name t.text) []

/-- `host_props.get(k, 'N/A')`: the stored text when the key is present
(which may itself be `none`, a tag with no text), else the sentinel. -/
def propGet (m : List (Option String × Option String)) (k : String) :
    Option String :=
  match (m.find? (fun p => p.1 = some k)).map (fun p => p.2) with
  | none => some "N/A"
  | some t => t

/-- The tags of the `HostProperties` sub-tree, empty when it is absent. -/
def tagsOf : Option (List Tag) → List Tag
  | none => []
  | some ts => ts

/-- One entry of `compliance_items` (dict keys in insertion order). -/
structure ComplianceRecord where
  file : String
  ipAddress : Option String
  fqdn : Option String
  pluginID : Option String
  severity : Int
  pluginName : Option String
  auditFile : Option String
  checkName : Option String
  result : Option String
  actualValue : Option String
  policyValue : Option String
  info : Option String
  solution : Option String
  seeAlso : Option String
deriving DecidableEq

/-- One entry of `vulnerabilities` (dict keys in insertion order). -/
structure VulnRecord where
  file : String
  ipAddress : Option String
  fqdn : Option String
  port : Option String
  protocol : Option String
  service : Option String
  pluginID : Option String
  pluginName : Option String
  pluginFamily : Option String
  severity : Int
  severityLabel : String
  cvssBaseScore : Option String
  cvssVector : Option String
  description : Option String
  solution : Option String
  synopsis : Option String
  exploitabilityEase : Option String
deriving DecidableEq

/-- One entry of `hosts_data`. -/
structure HostRecord where
  ipAddress : Option String
  fqdn : Option String
  operatingSystem : Option String
  critical : Nat
  high : Nat
  medium : Nat
  low : Nat
  info : Nat
  total : Nat
deriving DecidableEq

/-- The `host_vuln_counts` dict `{0: 0, 1: 0, 2: 0, 3: 0, 4: 0}`; field
`nK` holds the value at key `K`. -/
structure VulnCounts where
  n0 : Nat
  n1 : Nat
  n2 : Nat
  n3 : Nat
  n4 : Nat
deriving DecidableEq

/-- `sum(host_vuln_counts.values())`. -/
def VulnCounts.total (c : VulnCounts) : Nat :=
  c.n0 + c.n1 + c.n2 + c.n3 + c.n4

/-- `host_vuln_counts[k] += 1`: indexing a key outside `{0,..,4}` raises
`KeyError`, as Python dict indexing does. -/
def VulnCounts.inc (c : VulnCounts) (k : Int) : Except String VulnCounts :=
  if k = 0 then Except.ok { c with n0 := c.n0 + 1 }
  else if k = 1 then Except.ok { c with n1 := c.n1 + 1 }
  else if k = 2 then Except.ok { c with n2 := c.n2 + 1 }
  else if k = 3 then Except.ok { c with n3 := c.n3 + 1 }
  else if k = 4 then Except.ok { c with n4 := c.n4 + 1 }
  else Except.error "KeyError"

/-- `plugin_family == 'Policy Compliance'` (a `none` family, like Python
`None`, never equals the literal). -/
def ReportItem.isCompliance (it : ReportItem) : Bool :=
  it.pluginFamily = some "Policy Compliance"

/-- The mutable state of the per-host loop body: the severity counts and
the two record lists being appended to. -/
structure HostState where
  counts : VulnCounts
  vulns : List VulnRecord
  compliance : List ComplianceRecord
deriving DecidableEq

/-- The body of `for item in report_host.findall('ReportItem')` (source
lines 69-129): read attributes, `int()` the severity (TypeError when the
attribute is absent, ValueError when non-numeric), route compliance items
(whose dict literal evaluates eight namespace-prefixed `findtext` calls,
the first of which raises SyntaxError), otherwise bump the severity count
(line 100, KeyError outside 0-4), extract the plain-path text fields and
append the vulnerability record.  Any exception aborts the loop. -/
def processItem (filePath : String) (ip fqdn : Option String)
    (st : HostState) (item : ReportItem) : Except String HostState :=
  match item.severityAttr with
  | none => Except.error "TypeError: int() argument is None"
  | some sevStr =>
  match pyInt sevStr with
  | none => Except.error "ValueError: invalid literal for int()"
  | some severity =>
  if item.isCompliance then
    match item.findtext "cm:compliance-audit-file" with
    | Except.error e => Except.error e
    | Except.ok auditFile =>
    match item.findtext "cm:compliance-check-name" with
    | Except.error e => Except.error e
    | Except.ok checkName =>
    match item.findtext "cm:compliance-result" with
    | Except.error e => Except.error e
    | Except.ok result =>
    match item.findtext "cm:compliance-actual-value" with
    | Except.error e => Except.error e
    | Except.ok actualValue =>
    match item.findtext "cm:compliance-policy-value" with
    | Except.error e => Except.error e
    | Except.ok policyValue =>
    match item.findtext "cm:compliance-info" with
    | Except.error e => Except.error e
    | Except.ok infoText =>
    match item.findtext "cm:compliance-solution" with
    | Except.error e => Except.error e
    | Except.ok solutionText =>
    match item.findtext "cm:compliance-see-also" with
    | Except.error e => Except.error e
    | Except.ok seeAlso =>
    Except.ok { st with compliance := st.compliance ++ [{
      file := filePath
      ipAddress := ip
      fqdn := fqdn
      pluginID := item.pluginID
      severity := severity
      pluginName := item.pluginName
      auditFile := auditFile
      checkName := checkName
      result := result
      actualValue := actualValue
      policyValue := policyValue
      info := infoText
      solution := solutionText
      seeAlso := seeAlso }] }
  else
    match st.counts.inc severity with
    | Except.error e => Except.error e
    | Except.ok counts =>
    match item.findtext "description" with
    | Except.error e => Except.error e
    | Except.ok description =>
    match item.findtext "solution" with
    | Except.error e => Except.error e
    | Except.ok solutionText =>
    match item.findtext "synopsis" with
    | Except.error e => Except.error e
    | Except.ok synopsis =>
    match item.findtext "cvss_base_score" with
    | Except.error e => Except.error e
    | Except.ok cvssBase =>
    match item.findtext "cvss_vector" with
    | Except.error e => Except.error e
    | Except.ok cvssVector =>
    match item.findtext "exploitability_ease" with
    | Except.error e => Except.error e
    | Except.ok exploitEase =>
    Except.ok { st with
      counts := counts
      vulns := st.vulns ++ [{
        file := filePath
        ipAddress := ip
        fqdn := fqdn
        port := item.port
        protocol := item.protocol
        service := item.svc_name
        pluginID := item.pluginID
        pluginName := item.pluginName
        pluginFamily := item.pluginFamily
        severity := severity
        severityLabel := SEVERITY_MAP_getD severity "Unknown"
        cvssBaseScore := cvssBase
        cvssVector := cvssVector
        description := description
        solution := solutionText
        synopsis := synopsis
        exploitabilityEase := exploitEase }] }

/-- The body of `for report_host in report.findall('ReportHost')` (source
lines 55-141): build `host_props`, resolve identity fields, run the item
loop, then append the `hosts_data` entry. -/
def parseReportHost (filePath : String) (rh : ReportHost) :
    Except String (HostRecord × List VulnRecord × List ComplianceRecord) := do
  let props := buildProps rh.hostProperties
  let ip := propGet props "host-ip"
  let fqdn := propGet props "host-fqdn"
  let osName := propGet props "operating-system"
  let st ← rh.reportItems.foldlM (processItem filePath ip fqdn)
    ⟨⟨0, 0, 0, 0, 0⟩, [], []⟩
  Except.ok ({
    ipAddress := ip
    fqdn := fqdn
    operatingSystem := osName
    critical := st.counts.n4
    high := st.counts.n3
    medium := st.counts.n2
    low := st.counts.n1
    info := st.counts.n0
    total := st.counts.total }, st.vulns, st.compliance)

/-- The host loop, fail-fast as in Python: the first raised exception
aborts the whole parse. -/
def parseReportHosts (filePath : String) : List ReportHost →
    Except String (List (HostRecord × List VulnRecord × List ComplianceRecord))
  | [] => Except.ok []
  | rh :: rest => do
    let r ← parseReportHost filePath rh
    let rs ← parseReportHosts filePath rest
    Except.ok (r :: rs)

/-- `parse_nessus_xml` on an already XML-parsed document (file existence
and XML well-formedness are handled before this point in the source):
check the `Report` container, then collect the three record lists
in document order. -/
def parse_nessus_xml (filePath : String) (doc : NessusDoc) :
    Except String (List HostRecord × List VulnRecord × List ComplianceRecord) :=
  match doc.report with
  | none => Except.error "Error: Invalid Nessus file format (no Report tag)."
  | some reportHosts => do
    let results ← parseReportHosts filePath reportHosts
    Except.ok (results.map (fun r => r.1),
      (results.map (fun r => r.2.1)).flatten,
      (results.map (fun r => r.2.2)).flatten)

/-- A spreadsheet cell value: plain string, optional string (a field that
may be missing from the XML), Python int, or count. -/
inductive Cell
  | s (v : String)
  | os (v : Option String)
  | i (v : Int)
  | n (v : Nat)
deriving DecidableEq

/-- One `worksheet.write(row, col, value)` call, rows and columns
zero-based as in xlsxwriter's numeric interface. -/
structure CellWrite where
  row : Nat
  col : Nat
  val : Cell
deriving DecidableEq

/-- Split leading uppercase column letters from the rest. -/
def splitLetters : List Char → List Char × List Char
  | [] => ([], [])
  | c :: cs =>
    if c.isUpper then
      let r := splitLetters cs
      (c :: r.1, r.2)
    else ([], c :: cs)

/-- Column letters to a one-based column number (A=1, ..., Z=26, AA=27). -/
def colLettersIndex (ls : List Char) : Nat :=
  ls.foldl (fun acc c => acc * 26 + (c.toNat - 64)) 0

def digitsToNat? (ds : List Char) : Option Nat :=
  if ds.isEmpty then none
  else if ds.all Char.isDigit then some (digitsVal ds)
  else none

/-- An A1-style cell reference (with optional `$` markers) to a zero-based
(row, column) pair, as xlsxwriter's `xl_cell_to_rowcol` does. -/
def a1Cell? (cs : List Char) : Option (Nat × Nat) :=
  let cs := cs.filter (fun c => c != '$')
  let p := splitLetters cs
  if p.1.isEmpty then none
  else match digitsToNat? p.2 with
    | none => none
    | some r => if r = 0 then none else some (r - 1, colLettersIndex p.1 - 1)

/-- `worksheet.write('A20', v)`: A1-notation write, converted to the
numeric row/column form. -/
def writeA1 (ref : String) (v : Cell) : Option CellWrite :=
  (a1Cell? ref.toList).map (fun rc => ⟨rc.1, rc.2, v⟩)

/-- The zero-based cells named by a chart range reference such as
`=Home!$A$21:$A$25`, row-major. -/
def rangeCells (ref : String) : Option (List (Nat × Nat)) :=
  let cs := ref.toList
  let cs := if cs.head? = some '=' then cs.drop 1 else cs
  let cs := if cs.contains '!' then (cs.dropWhile (fun c => c != '!')).drop 1
    else cs
  let fst := cs.takeWhile (fun c => c != ':')
  let snd := (cs.dropWhile (fun c => c != ':')).drop 1
  match a1Cell? fst, a1Cell? snd with
  | some rc1, some rc2 =>
    if rc1.1 ≤ rc2.1 ∧ rc1.2 ≤ rc2.2 then
      some ((List.range (rc2.1 + 1 - rc1.1)).flatMap (fun i =>
        (List.range (rc2.2 + 1 - rc1.2)).map (fun j =>
          (rc1.1 + i, rc1.2 + j))))
    else none
  | _, _ => none

/-- The `severity_counts` dict of `create_dashboard_chart`: start at zero
for the five labels, then bump the label of each vulnerability whose
severity is a `SEVERITY_MAP` key (`if label:` skips the rest). -/
def severity_counts (vulns : List VulnRecord) : List (String × Nat) :=
  vulns.foldl (fun m v =>
    match SEVERITY_MAP v.severity with
    | some label => m.map (fun p => if p.1 = label then (p.1, p.2 + 1) else p)
    | none => m)
    [("Critical", 0), ("High", 0), ("Medium", 0), ("Low", 0), ("Info", 0)]

/-- `severity_counts[k]` (the five keys are always present). -/
def countOf (m : List (String × Nat)) (k : String) : Nat :=
  ((m.find? (fun p => p.1 = k)).map (fun p => p.2)).getD 0

/-- The loop `row = 20; for sev in ['Critical', ...]: write(row, 0, sev);
write(row, 1, severity_counts[sev]); row += 1`. -/
def dashboardTableWrites (counts : List (String × Nat)) : List CellWrite :=
  (["Critical", "High", "Medium", "Low", "Info"].enum).flatMap (fun p =>
    [⟨20 + p.1, 0, Cell.s p.2⟩, ⟨20 + p.1, 1, Cell.n (countOf counts p.2)⟩])

/-- The chart configuration passed to `workbook.add_chart` /
`chart.add_series` / `set_title` / `set_style` / `insert_chart`. -/
structure ChartSpec where
  chartType : String
  seriesName : String
  categories : String
  values : String
  pointColors : List (Option String)
  title : String
  style : Nat
  insertAt : String
deriving DecidableEq

/-- `create_dashboard_chart`: the cell writes it performs on the Home
sheet (headers at A1-notation `A20`/`B20`, then the five label/count rows)
and the chart it inserts. -/
def create_dashboard_chart (vulns : List VulnRecord) :
    List CellWrite × ChartSpec :=
  let counts := severity_counts vulns
  (([writeA1 "A20" (Cell.s "Severity"),
     writeA1 "B20" (Cell.s "Count")].filterMap id)
    ++ dashboardTableWrites counts,
   { chartType := "column"
     seriesName := "Vulnerabilities by Severity"
     categories := "=Home!$A$21:$A$25"
     values := "=Home!$B$21:$B$25"
     pointColors := [COLORS "Critical", COLORS "High", COLORS "Medium",
       COLORS "Low", COLORS "Info"]
     title := "Scan Summary"
     style := 10
     insertAt := "D2" })

/-- A produced sheet: its name, header row, and data rows. -/
structure Sheet where
  name : String
  columns : List String
  rows : List (List Cell)
deriving DecidableEq

def home_cols : List String :=
  ["Scan Date", "Total Hosts", "Total Vulnerabilities",
   "Total Compliance Checks"]

/-- The `cols` reordering list for the Host Summary sheet. -/
def host_cols : List String :=
  ["IP Address", "FQDN", "Operating System", "Critical", "High", "Medium",
   "Low", "Info", "Total"]

/-- `disp_cols` for the per-severity sheets. -/
def disp_cols : List String :=
  ["IP Address", "FQDN", "Port", "Protocol", "Service", "Plugin ID",
   "Plugin Name", "CVSS Base Score", "Description", "Solution"]

/-- Compliance-sheet columns: the `compliance_dict` keys in insertion
order, as `pd.DataFrame` preserves them. -/
def compliance_cols : List String :=
  ["File", "IP Address", "FQDN", "Plugin ID", "Severity", "Plugin Name",
   "Audit File", "Check Name", "Result", "Actual Value", "Policy Value",
   "Info", "Solution", "See Also"]

def hostRow (h : HostRecord) : List Cell :=
  [Cell.os h.ipAddress, Cell.os h.fqdn, Cell.os h.operatingSystem,
   Cell.n h.critical, Cell.n h.high, Cell.n h.medium, Cell.n h.low,
   Cell.n h.info, Cell.n h.total]

def vulnDispRow (v : VulnRecord) : List Cell :=
  [Cell.os v.ipAddress, Cell.os v.fqdn, Cell.os v.port, Cell.os v.protocol,
   Cell.os v.service, Cell.os v.pluginID, Cell.os v.pluginName,
   Cell.os v.cvssBaseScore, Cell.os v.description, Cell.os v.solution]

def complianceRow (c : ComplianceRecord) : List Cell :=
  [Cell.s c.file, Cell.os c.ipAddress, Cell.os c.fqdn, Cell.os c.pluginID,
   Cell.i c.severity, Cell.os c.pluginName, Cell.os c.auditFile,
   Cell.os c.checkName, Cell.os c.result, Cell.os c.actualValue,
   Cell.os c.policyValue, Cell.os c.info, Cell.os c.solution,
   Cell.os c.seeAlso]

/-- The `for severity_val in [4, 3, 2, 1, 0]` loop of `write_excel`:
filter the vulnerability frame by severity and emit a sheet only when the
subset is non-empty.  (The `none` branch is unreachable: the loop visits
only `SEVERITY_MAP` keys, where Python's `SEVERITY_MAP[severity_val]`
cannot raise.) -/
def severitySheets (vulns : List VulnRecord) : List Sheet :=
  ([4, 3, 2, 1, 0] : List Int).filterMap (fun sv =>
    match SEVERITY_MAP sv with
    | none => none
    | some sevLabel =>
      let subset := vulns.filter (fun v => v.severity = sv)
      if subset.isEmpty then none
      else some { name := sevLabel, columns := disp_cols,
                  rows := subset.map vulnDispRow })

/-- `write_excel` as the ordered list of sheets it creates (`now` stands
for `datetime.now().strftime(...)`): Home always; Host Summary only when
`hosts_data` is non-empty; severity sheets only when `vulnerabilities` is
non-empty, one per non-empty severity subset; Compliance only when
`compliance_items` is non-empty.  Chart and formatting cell writes on the
Home sheet are modelled by `create_dashboard_chart`. -/
def write_excel (now : String) (hosts : List HostRecord)
    (vulns : List VulnRecord) (compliance : List ComplianceRecord) :
    List Sheet :=
  [{ name := "Home", columns := home_cols,
     rows := [[Cell.s now, Cell.n hosts.length, Cell.n vulns.length,
               Cell.n compliance.length]] }]
  ++ (if hosts.isEmpty then [] else
      [{ name := "Host Summary", columns := host_cols,
         rows := hosts.map hostRow }])
  ++ (if vulns.isEmpty then [] else severitySheets vulns)
  ++ (if compliance.isEmpty then [] else
      [{ name := "Compliance", columns := compliance_cols,
         rows := compliance.map complianceRow }])

/-- `main` after argument handling: parse, then write; any exception from
the extractor aborts the run before `write_excel` is invoked, so on error
no sheet is produced. -/
def run (filePath now : String) (doc : NessusDoc) :
    Except String (List Sheet) := do
  let r ← parse_nessus_xml filePath doc
  Except.ok (write_excel now r.1 r.2.1 r.2.2)

/-- An item whose severity attribute is present but would make Python's
`int()` raise `ValueError`. -/
def hasBadSeverity (it : ReportItem) : Bool :=
  match it.severityAttr with
  | some s => (pyInt s).isNone
  | none => false

/-! ### Concrete fixtures used as witnesses and counterexamples -/

/-- A non-compliance finding item whose severity attribute is the integer
`5`, outside the five known ordinals. -/
def sevFiveItem : ReportItem :=
  { pluginID := some "99999"
    pluginName := some "Vendor Extension Check"
    pluginFamily := some "General"
    severityAttr := some "5"
    port := some "0"
    protocol := some "tcp"
    svc_name := some "general"
    children := [] }

def sevFiveDoc : NessusDoc := ⟨some [⟨none, [sevFiveItem]⟩]⟩

/-- A finding item whose severity attribute is the non-numeric `"abc"`. -/
def sevAbcItem : ReportItem :=
  { pluginID := some "10180"
    pluginName := some "Ping the remote host"
    pluginFamily := some "Port scanners"
    severityAttr := some "abc"
    port := some "0"
    protocol := some "icmp"
    svc_name := some "ping"
    children := [] }

def sevAbcHost : ReportHost := ⟨none, [sevAbcItem]⟩

def sevAbcDoc : NessusDoc := ⟨some [sevAbcHost]⟩

/-- The specification's example host: IP `10.0.0.5`, no FQDN, one
Critical finding, one Medium finding and one compliance item. -/
def exItemCritical : ReportItem :=
  { pluginID := some "11111"
    pluginName := some "Example Critical Issue"
    pluginFamily := some "General"
    severityAttr := some "4"
    port := some "445"
    protocol := some "tcp"
    svc_name := some "cifs"
    children := [] }

def exItemMedium : ReportItem :=
  { pluginID := some "22222"
    pluginName := some "Example Medium Issue"
    pluginFamily := some "General"
    severityAttr := some "2"
    port := some "80"
    protocol := some "tcp"
    svc_name := some "www"
    children := [] }

def exItemCompliance : ReportItem :=
  { pluginID := some "33333"
    pluginName := some "Example Compliance Check"
    pluginFamily := some "Policy Compliance"
    severityAttr := some "0"
    port := some "0"
    protocol := some "tcp"
    svc_name := some "general"
    children := [("cm:compliance-result", some "FAILED")] }

def exHost : ReportHost :=
  { hostProperties := some [⟨some "host-ip", some "10.0.0.5"⟩]
    reportItems := [exItemCritical, exItemMedium, exItemCompliance] }

def exDoc : NessusDoc := ⟨some [exHost]⟩

/-- The example host without its compliance item (the source never
survives a compliance item, see `compliance_item_aborts_run`). -/
def exHostVulnsOnly : ReportHost :=
  { hostProperties := some [⟨some "host-ip", some "10.0.0.5"⟩]
    reportItems := [exItemCritical, exItemMedium] }

def exDocVulnsOnly : NessusDoc := ⟨some [exHostVulnsOnly]⟩

/-- The host record the extractor produces for `exHost`. -/
def exHostRecord : HostRecord :=
  { ipAddress := some "10.0.0.5"
    fqdn := some "N/A"
    operatingSystem := some "N/A"
    critical := 1
    high := 0
    medium := 1
    low := 0
    info := 0
    total := 2 }

/-- The vulnerability record the extractor produces for `exItemCritical`
on `exHost`. -/
def exVulnCritical : VulnRecord :=
  { file := "scan.nessus"
    ipAddress := some "10.0.0.5"
    fqdn := some "N/A"
    port := some "445"
    protocol := some "tcp"
    service := some "cifs"
    pluginID := some "11111"
    pluginName := some "Example Critical Issue"
    pluginFamily := some "General"
    severity := 4
    severityLabel := "Critical"
    cvssBaseScore := none
    cvssVector := none
    description := none
    solution := none
    synopsis := none
    exploitabilityEase := none }

/-- The vulnerability record the extractor produces for `exItemMedium`
on `exHost`. -/
def exVulnMedium : VulnRecord :=
  { file := "scan.nessus"
    ipAddress := some "10.0.0.5"
    fqdn := some "N/A"
    port := some "80"
    protocol := some "tcp"
    service := some "www"
    pluginID := some "22222"
    pluginName := some "Example Medium Issue"
    pluginFamily := some "General"
    severity := 2
    severityLabel := "Medium"
    cvssBaseScore := none
    cvssVector := none
    description := none
    solution := none
    synopsis := none
    exploitabilityEase := none }

/-- A host element with no properties and no items. -/
def emptyHost : ReportHost := ⟨none, []⟩

/-- The all-sentinel host record `emptyHost` yields. -/
def naHostRecord : HostRecord :=
  { ipAddress := some "N/A"
    fqdn := some "N/A"
    operatingSystem := some "N/A"
    critical := 0
    high := 0
    medium := 0
    low := 0
    info := 0
    total := 0 }

/-- The Home sheet produced when all three record collections are
empty. -/
def homeOnlySheet (now : String) : Sheet :=
  { name := "Home"
    columns := home_cols
    rows := [[Cell.s now, Cell.n 0, Cell.n 0, Cell.n 0]] }

/-- The severity sheet `write_excel` emits for a single Critical
finding. -/
def exCriticalSheet : Sheet :=
  { name := "Critical"
    columns := disp_cols
    rows := [vulnDispRow exVulnCritical] }

/-! ### Helper lemmas about the `Except` monad and the extractor's loops -/

theorem ok_bind {α β : Type} (a : α) (f : α → Except String β) :
    (Except.ok a >>= f) = f a := rfl

theorem error_bind {α β : Type} (e : String) (f : α → Except String β) :
    ((Except.error e : Except String α) >>= f) = Except.error e := rfl

theorem pure_eq_ok {α : Type} (a : α) :
    (pure a : Except String α) = Except.ok a := rfl

theorem VulnCounts.inc_total {c c' : VulnCounts} {k : Int}
    (h : c.inc k = Except.ok c') : c'.total = c.total + 1 := by
  unfold VulnCounts.inc at h
  split_ifs at h
  · injection h with h2; subst h2; simp [VulnCounts.total]; omega
  · injection h with h2; subst h2; simp [VulnCounts.total]; omega
  · injection h with h2; subst h2; simp [VulnCounts.total]; omega
  · injection h with h2; subst h2; simp [VulnCounts.total]; omega
  · injection h with h2; subst h2; simp [VulnCounts.total]; omega

/-- Case analysis on one successful iteration of the item loop: success
is only possible for a non-compliance item (a compliance item always
raises SyntaxError on the first prefixed `findtext` path), and it bumps
the count total by one and appends one vulnerability record carrying the
item's plugin family. -/
theorem processItem_ok {fp : String} {ip fq : Option String}
    {st : HostState} {it : ReportItem} {st' : HostState}
    (h : processItem fp ip fq st it = Except.ok st') :
    it.isCompliance = false
    ∧ st'.counts.total = st.counts.total + 1
    ∧ (∃ r : VulnRecord, st'.vulns = st.vulns ++ [r]
        ∧ r.pluginFamily = it.pluginFamily)
    ∧ st'.compliance = st.compliance := by
  unfold processItem at h
  cases hsev : it.severityAttr with
  | none => rw [hsev] at h; exact absurd h (by simp)
  | some s =>
    rw [hsev] at h
    simp only [] at h
    cases hpy : pyInt s with
    | none => rw [hpy] at h; exact absurd h (by simp)
    | some n =>
      rw [hpy] at h
      simp only [] at h
      by_cases hc : it.isCompliance = true
      · rw [if_pos hc] at h
        rw [show it.findtext "cm:compliance-audit-file"
            = Except.error "SyntaxError: prefix not found in prefix map"
          from rfl] at h
        simp only [] at h
        exact absurd h (by simp)
      · rw [if_neg hc] at h
        cases hinc : st.counts.inc n with
        | error e => rw [hinc] at h; exact absurd h (by simp)
        | ok counts =>
          rw [hinc] at h
          simp only [] at h
          injection h with h2
          subst h2
          exact ⟨Bool.eq_false_iff.mpr hc, VulnCounts.inc_total hinc,
            ⟨_, rfl, rfl⟩, rfl⟩

/-- Bookkeeping invariant of the whole item loop: on success every item
was a non-compliance item, the count total tracks the number of appended
vulnerability records, one vulnerability record is appended per item, the
compliance list is untouched, and no appended vulnerability record
carries the compliance plugin family. -/
theorem foldlM_processItem_stats (fp : String) (ip fq : Option String)
    (items : List ReportItem) :
    ∀ st st' : HostState,
      List.foldlM (processItem fp ip fq) st items = Except.ok st' →
      st'.counts.total + st.vulns.length = st.counts.total + st'.vulns.length
      ∧ st'.vulns.length = st.vulns.length + items.length
      ∧ st'.compliance = st.compliance
      ∧ (∀ it ∈ items, it.isCompliance = false)
      ∧ (∀ r ∈ st'.vulns, r ∈ st.vulns
          ∨ r.pluginFamily ≠ some "Policy Compliance") := by
  induction items with
  | nil =>
    intro st st' h
    rw [List.foldlM_nil, pure_eq_ok] at h
    injection h with h2
    subst h2
    exact ⟨rfl, by simp, rfl, by simp, fun r hr => Or.inl hr⟩
  | cons it rest ih =>
    intro st st' h
    rw [List.foldlM_cons] at h
    cases hstep : processItem fp ip fq st it with
    | error e => rw [hstep, error_bind] at h; exact absurd h (by simp)
    | ok st1 =>
      rw [hstep, ok_bind] at h
      obtain ⟨h1, h2, h3, h4, h5⟩ := ih st1 st' h
      obtain ⟨hc, hcounts, ⟨r, hvulns, hfam⟩, hcomp⟩ := processItem_ok hstep
      have hfam2 : it.pluginFamily ≠ some "Policy Compliance" := by
        simpa [ReportItem.isCompliance] using hc
      rw [hvulns, List.length_append, List.length_singleton] at h1 h2
      rw [hcomp] at h3
      refine ⟨by omega, by rw [List.length_cons]; omega, h3, ?_, ?_⟩
      · intro x hx
        rcases List.mem_cons.mp hx with hx1 | hx2
        · subst hx1; exact hc
        · exact h4 x hx2
      · intro r' hr'
        rcases h5 r' hr' with hmem | hfam'
        · rw [hvulns] at hmem
          rcases List.mem_append.mp hmem with hmem' | hmem'
          · exact Or.inl hmem'
          · right
            rw [List.mem_singleton.mp hmem', hfam]
            exact hfam2
        · exact Or.inr hfam'

/-- Unfolding of `parseReportHost` into the item-loop result. -/
theorem parseReportHost_eq (fp : String) (rh : ReportHost) :
    parseReportHost fp rh =
      (List.foldlM
        (processItem fp (propGet (buildProps rh.hostProperties) "host-ip")
          (propGet (buildProps rh.hostProperties) "host-fqdn"))
        ⟨⟨0, 0, 0, 0, 0⟩, [], []⟩ rh.reportItems) >>= fun st =>
      Except.ok ({
        ipAddress := propGet (buildProps rh.hostProperties) "host-ip"
        fqdn := propGet (buildProps rh.hostProperties) "host-fqdn"
        operatingSystem := propGet (buildProps rh.hostProperties)
          "operating-system"
        critical := st.counts.n4
        high := st.counts.n3
        medium := st.counts.n2
        low := st.counts.n1
        info := st.counts.n0
        total := st.counts.total }, st.vulns, st.compliance) := rfl

/-- A successful per-host parse comes from a successful item loop. -/
theorem parseReportHost_ok {fp : String} {rh : ReportHost} {hr : HostRecord}
    {vs : List VulnRecord} {cs : List ComplianceRecord}
    (h : parseReportHost fp rh = Except.ok (hr, vs, cs)) :
    ∃ st : HostState,
      List.foldlM
        (processItem fp (propGet (buildProps rh.hostProperties) "host-ip")
          (propGet (buildProps rh.hostProperties) "host-fqdn"))
        ⟨⟨0, 0, 0, 0, 0⟩, [], []⟩ rh.reportItems = Except.ok st
      ∧ hr = {
          ipAddress := propGet (buildProps rh.hostProperties) "host-ip"
          fqdn := propGet (buildProps rh.hostProperties) "host-fqdn"
          operatingSystem := propGet (buildProps rh.hostProperties)
            "operating-system"
          critical := st.counts.n4
          high := st.counts.n3
          medium := st.counts.n2
          low := st.counts.n1
          info := st.counts.n0
          total := st.counts.total }
      ∧ vs = st.vulns ∧ cs = st.compliance := by
  rw [parseReportHost_eq] at h
  cases hfold : List.foldlM
      (processItem fp (propGet (buildProps rh.hostProperties) "host-ip")
        (propGet (buildProps rh.hostProperties) "host-fqdn"))
      ⟨⟨0, 0, 0, 0, 0⟩, [], []⟩ rh.reportItems with
  | error e => rw [hfold, error_bind] at h; exact absurd h (by simp)
  | ok st =>
    rw [hfold, ok_bind] at h
    refine ⟨st, rfl, ?_⟩
    injection h with h2
    simp only [Prod.mk.injEq] at h2
    exact ⟨h2.1.symm, h2.2.1.symm, h2.2.2.symm⟩

theorem dictInsert_no_key {m : List (Option String × Option String)}
    {k v bad : Option String}
    (hm : ∀ p ∈ m, p.1 ≠ bad) (hk : k ≠ bad) :
    ∀ p ∈ dictInsert m k v, p.1 ≠ bad := by
  intro p hp
  unfold dictInsert at hp
  split at hp
  · rcases List.mem_map.mp hp with ⟨q, hq, hqe⟩
    by_cases hqk : q.1 = k
    · rw [if_pos hqk] at hqe
      rw [← hqe]
      exact hk
    · rw [if_neg hqk] at hqe
      rw [← hqe]
      exact hm q hq
  · rcases List.mem_append.mp hp with hin | hin
    · exact hm p hin
    · rw [List.mem_singleton.mp hin]
      exact hk

theorem buildProps_no_key (k : String) (tags : List Tag) :
    ∀ (m : List (Option String × Option String)),
      (∀ t ∈ tags, t.name ≠ some k) →
      (∀ p ∈ m, p.1 ≠ some k) →
      ∀ p ∈ tags.foldl (fun m t => dictInsert m t.name t.text) m,
        p.1 ≠ some k := by
  induction tags with
  | nil => intro m _ hm; exact hm
  | cons t rest ih =>
    intro m htags hm
    rw [List.foldl_cons]
    exact ih _ (fun t' ht' => htags t' (List.mem_cons_of_mem _ ht'))
      (dictInsert_no_key hm (htags t (List.mem_cons_self _ _)))

/-- A property key that no tag carries resolves to the `"N/A"` sentinel. -/
theorem propGet_absent (ps : Option (List Tag)) (k : String)
    (h : ∀ t ∈ tagsOf ps, t.name ≠ some k) :
    propGet (buildProps ps) k = some "N/A" := by
  cases ps with
  | none => rfl
  | some tags =>
    have hall : ∀ p ∈ buildProps (some tags), p.1 ≠ some k :=
      buildProps_no_key k tags [] h (by simp)
    have hnone : (buildProps (some tags)).find?
        (fun p => p.1 = some k) = none := by
      rw [List.find?_eq_none]
      intro p hp
      simpa using hall p hp
    unfold propGet
    rw [hnone]
    rfl

/-- Sequential host parsing preserves the host count. -/
theorem parseReportHosts_length (fp : String) :
    ∀ (l : List ReportHost)
      (r : List (HostRecord × List VulnRecord × List ComplianceRecord)),
      parseReportHosts fp l = Except.ok r → r.length = l.length := by
  intro l
  induction l with
  | nil =>
    intro r h
    unfold parseReportHosts at h
    injection h with h2
    subst h2
    rfl
  | cons rh rest ih =>
    intro r h
    unfold parseReportHosts at h
    cases hhd : parseReportHost fp rh with
    | error e => rw [hhd, error_bind] at h; exact absurd h (by simp)
    | ok x =>
      rw [hhd, ok_bind] at h
      cases htl : parseReportHosts fp rest with
      | error e => rw [htl, error_bind] at h; exact absurd h (by simp)
      | ok xs =>
        rw [htl, ok_bind] at h
        injection h with h2
        subst h2
        simp [ih xs htl]

/-- An item with a present but unparseable severity attribute makes the
loop body raise `ValueError` (Python `int()`), regardless of the state. -/
theorem processItem_bad_severity {fp : String} {ip fq : Option String}
    {st : HostState} {it : ReportItem} (hb : hasBadSeverity it = true) :
    processItem fp ip fq st it
      = Except.error "ValueError: invalid literal for int()" := by
  unfold hasBadSeverity at hb
  unfold processItem
  cases hsev : it.severityAttr with
  | none => rw [hsev] at hb; exact absurd hb (by simp)
  | some s =>
    rw [hsev] at hb
    simp only [] at hb
    rw [Option.isNone_iff_eq_none] at hb
    simp only []
    rw [hb]

/-- The item loop fails whenever some item has a bad severity attribute
(it may fail even earlier, on a preceding item). -/
theorem foldlM_bad_severity (fp : String) (ip fq : Option String) :
    ∀ (items : List ReportItem) (st : HostState),
      (∃ it ∈ items, hasBadSeverity it = true) →
      ∃ e, List.foldlM (processItem fp ip fq) st items
        = Except.error e := by
  intro items
  induction items with
  | nil => intro st h; simp at h
  | cons it rest ih =>
    intro st h
    rw [List.foldlM_cons]
    by_cases hb : hasBadSeverity it = true
    · exact ⟨_, by rw [processItem_bad_severity hb, error_bind]⟩
    · cases hstep : processItem fp ip fq st it with
      | error e => exact ⟨e, by rw [error_bind]⟩
      | ok st1 =>
        rw [ok_bind]
        apply ih st1
        rcases h with ⟨x, hx, hbad⟩
        rcases List.mem_cons.mp hx with hx1 | hx2
        · subst hx1; exact absurd hbad hb
        · exact ⟨x, hx2, hbad⟩

theorem parseReportHost_bad_severity {fp : String} {rh : ReportHost}
    (h : ∃ it ∈ rh.reportItems, hasBadSeverity it = true) :
    ∃ e, parseReportHost fp rh = Except.error e := by
  obtain ⟨e, he⟩ := foldlM_bad_severity fp
    (propGet (buildProps rh.hostProperties) "host-ip")
    (propGet (buildProps rh.hostProperties) "host-fqdn")
    rh.reportItems ⟨⟨0, 0, 0, 0, 0⟩, [], []⟩ h
  exact ⟨e, by rw [parseReportHost_eq, he, error_bind]⟩

theorem parseReportHosts_bad (fp : String) :
    ∀ l : List ReportHost,
      (∃ rh ∈ l, ∃ it ∈ rh.reportItems, hasBadSeverity it = true) →
      ∃ e, parseReportHosts fp l = Except.error e := by
  intro l
  induction l with
  | nil => intro h; simp at h
  | cons rh rest ih =>
    intro h
    unfold parseReportHosts
    rcases h with ⟨x, hx, hbad⟩
    rcases List.mem_cons.mp hx with hx1 | hx2
    · subst hx1
      obtain ⟨e, he⟩ := @parseReportHost_bad_severity fp x hbad
      exact ⟨e, by rw [he, error_bind]⟩
    · cases hhd : parseReportHost fp rh with
      | error e => exact ⟨e, by rw [error_bind]⟩
      | ok x1 =>
        obtain ⟨e, he⟩ := ih ⟨x, hx2, hbad⟩
        exact ⟨e, by rw [ok_bind, he, error_bind]⟩

/-! ### Claim theorems -/

/-- C4: for every `HostRecord` the extractor produces, the five severity
counts sum to its `Total`, and `Total` equals the number of
vulnerability (`FindingRecord`) entries extracted for that host. -/
theorem host_counts_sum_to_total (fp : String) (rh : ReportHost)
    (hr : HostRecord) (vs : List VulnRecord) (cs : List ComplianceRecord)
    (h : parseReportHost fp rh = Except.ok (hr, vs, cs)) :
    hr.critical + hr.high + hr.medium + hr.low + hr.info = hr.total
    ∧ hr.total = vs.length := by
  obtain ⟨st, hfold, hhr, hvs, hcs⟩ := parseReportHost_ok h
  obtain ⟨h1, _, _, _, _⟩ := foldlM_processItem_stats _ _ _ _ _ _ hfold
  subst hhr hvs
  simp only [VulnCounts.total, List.length_nil] at h1 ⊢
  omega

/-- C3 (evaluation at the failing input): the routing claim fails in the
code — an item whose plugin family equals `"Policy Compliance"` never
appears in the compliance collection, because the first
namespace-prefixed `findtext` path of the compliance branch (source line
87) raises SyntaxError and aborts the whole parse, here on the
specification's own example document. -/
theorem compliance_item_aborts_run :
    parse_nessus_xml "scan.nessus" exDoc
      = Except.error "SyntaxError: prefix not found in prefix map" := by
  rfl

/-- C8: identity fields whose key is absent from the host's property
sub-tree (including when the sub-tree itself is absent) resolve to the
sentinel `"N/A"`, never to a missing value. -/
theorem absent_identity_fields_are_na (fp : String) (rh : ReportHost)
    (hr : HostRecord) (vs : List VulnRecord) (cs : List ComplianceRecord)
    (h : parseReportHost fp rh = Except.ok (hr, vs, cs)) :
    ((∀ t ∈ tagsOf rh.hostProperties, t.name ≠ some "host-ip") →
      hr.ipAddress = some "N/A")
    ∧ ((∀ t ∈ tagsOf rh.hostProperties, t.name ≠ some "host-fqdn") →
      hr.fqdn = some "N/A")
    ∧ ((∀ t ∈ tagsOf rh.hostProperties, t.name ≠ some "operating-system") →
      hr.operatingSystem = some "N/A") := by
  obtain ⟨st, hfold, hhr, hvs, hcs⟩ := parseReportHost_ok h
  subst hhr
  exact ⟨fun hi => propGet_absent _ _ hi, fun hf => propGet_absent _ _ hf,
    fun ho => propGet_absent _ _ ho⟩

/-- C9: on a successful parse the number of `HostRecord` entries equals
the number of `ReportHost` elements under the `Report` container, and the
three output sequences are the per-host results concatenated in document
order. -/
theorem host_record_count (fp : String) (doc : NessusDoc)
    (hs : List HostRecord) (vs : List VulnRecord)
    (cs : List ComplianceRecord)
    (h : parse_nessus_xml fp doc = Except.ok (hs, vs, cs)) :
    ∃ rhs, doc.report = some rhs ∧ hs.length = rhs.length
      ∧ ∃ results, parseReportHosts fp rhs = Except.ok results
        ∧ hs = results.map (fun r => r.1)
        ∧ vs = (results.map (fun r => r.2.1)).flatten
        ∧ cs = (results.map (fun r => r.2.2)).flatten := by
  unfold parse_nessus_xml at h
  cases hrep : doc.report with
  | none => rw [hrep] at h; exact absurd h (by simp)
  | some rhs =>
    rw [hrep] at h
    simp only [] at h
    cases hres : parseReportHosts fp rhs with
    | error e => rw [hres, error_bind] at h; exact absurd h (by simp)
    | ok results =>
      rw [hres, ok_bind] at h
      injection h with h2
      simp only [Prod.mk.injEq] at h2
      refine ⟨rhs, rfl, ?_, results, hres, h2.1.symm, h2.2.1.symm,
        h2.2.2.symm⟩
      rw [← h2.1]
      simp [parseReportHosts_length fp rhs results hres]

/-- Witness for C9 at the example document with its two findings. -/
theorem host_record_count_witness :
    ∃ rhs, exDocVulnsOnly.report = some rhs
      ∧ ([exHostRecord] : List HostRecord).length = rhs.length
      ∧ ∃ results, parseReportHosts "scan.nessus" rhs = Except.ok results
        ∧ [exHostRecord] = results.map (fun r => r.1)
        ∧ [exVulnCritical, exVulnMedium]
            = (results.map (fun r => r.2.1)).flatten
        ∧ ([] : List ComplianceRecord)
            = (results.map (fun r => r.2.2)).flatten :=
  host_record_count "scan.nessus" exDocVulnsOnly [exHostRecord]
    [exVulnCritical, exVulnMedium] [] (by rfl)

/-- Witness for C4 at the example host with its two findings. -/
theorem host_counts_sum_to_total_witness :
    exHostRecord.critical + exHostRecord.high + exHostRecord.medium
      + exHostRecord.low + exHostRecord.info = exHostRecord.total
    ∧ exHostRecord.total
      = ([exVulnCritical, exVulnMedium] : List VulnRecord).length :=
  host_counts_sum_to_total "scan.nessus" exHostVulnsOnly exHostRecord
    [exVulnCritical, exVulnMedium] [] (by rfl)

/-- Witness for C8 at a host with no property sub-tree. -/
theorem absent_identity_fields_are_na_witness :
    naHostRecord.ipAddress = some "N/A"
    ∧ naHostRecord.fqdn = some "N/A"
    ∧ naHostRecord.operatingSystem = some "N/A" := by
  have h := absent_identity_fields_are_na "scan.nessus" emptyHost
    naHostRecord [] [] (by rfl)
  exact ⟨h.1 (by simp [emptyHost, tagsOf]), h.2.1 (by simp [emptyHost, tagsOf]),
    h.2.2 (by simp [emptyHost, tagsOf])⟩

/-- C1 (evaluation at the failing input): a non-compliance item whose
severity parses to `5`, outside the five known ordinals, does not yield a
`FindingRecord` labelled `"Unknown"` — the extractor aborts with the
`KeyError` raised by `host_vuln_counts[severity] += 1` before the
`SEVERITY_MAP.get(severity, 'Unknown')` fallback can ever apply. -/
theorem unknown_severity_aborts_run :
    parse_nessus_xml "scan.nessus" sevFiveDoc = Except.error "KeyError" := by
  rfl

/-- C2: a document containing a finding item whose severity attribute is
present but not integer-parseable makes the extractor fail, and the whole
run fails with that error: `write_excel` is never reached and no sheet is
produced. -/
theorem unparseable_severity_is_fatal (fp now : String) (doc : NessusDoc)
    (rhs : List ReportHost) (hrep : doc.report = some rhs)
    (h : ∃ rh ∈ rhs, ∃ it ∈ rh.reportItems, ∃ s,
        it.severityAttr = some s ∧ pyInt s = none) :
    ∃ e, parse_nessus_xml fp doc = Except.error e
      ∧ run fp now doc = Except.error e := by
  have hbad : ∃ rh ∈ rhs, ∃ it ∈ rh.reportItems,
      hasBadSeverity it = true := by
    obtain ⟨rh, hrh, it, hit, s, hs, hpy⟩ := h
    refine ⟨rh, hrh, it, hit, ?_⟩
    unfold hasBadSeverity
    rw [hs]
    simp [hpy]
  obtain ⟨e, he⟩ := parseReportHosts_bad fp rhs hbad
  have hp : parse_nessus_xml fp doc = Except.error e := by
    unfold parse_nessus_xml
    rw [hrep]
    simp only []
    rw [he, error_bind]
  exact ⟨e, hp, by unfold run; rw [hp, error_bind]⟩

/-- Witness for C2 at a document with severity attribute `"abc"`. -/
theorem unparseable_severity_is_fatal_witness :
    ∃ e, parse_nessus_xml "scan.nessus" sevAbcDoc = Except.error e
      ∧ run "scan.nessus" "2026-10-12 00:00:00" sevAbcDoc
        = Except.error e :=
  unparseable_severity_is_fatal "scan.nessus" "2026-10-12 00:00:00"
    sevAbcDoc [sevAbcHost] rfl
    ⟨sevAbcHost, by simp, sevAbcItem, by simp [sevAbcHost], "abc", rfl,
      by rfl⟩

/-- C5: the chart's category range names exactly the cells where
`create_dashboard_chart` wrote the five severity labels, and its value
range exactly the cells where it wrote the five counts, whatever the
vulnerability list. -/
theorem chart_ranges_match_written_cells (vulns : List VulnRecord) :
    rangeCells (create_dashboard_chart vulns).2.categories
      = some (((create_dashboard_chart vulns).1.filter
          (fun w => match w.val with
            | Cell.s t =>
              ["Critical", "High", "Medium", "Low", "Info"].contains t
            | _ => false)).map (fun w => (w.row, w.col)))
    ∧ rangeCells (create_dashboard_chart vulns).2.values
      = some (((create_dashboard_chart vulns).1.filter
          (fun w => match w.val with
            | Cell.n _ => true
            | _ => false)).map (fun w => (w.row, w.col))) :=
  ⟨rfl, rfl⟩

/-- Every sheet emitted by the severity loop carries the fixed display
columns and a severity label as name, and only when the matching
severity subset is non-empty. -/
theorem severitySheets_mem {vulns : List VulnRecord} {sh : Sheet}
    (h : sh ∈ severitySheets vulns) :
    sh.columns = disp_cols
    ∧ ∃ sv : Int, SEVERITY_MAP sv = some sh.name
      ∧ vulns.filter (fun v => v.severity = sv) ≠ [] := by
  unfold severitySheets at h
  rw [List.mem_filterMap] at h
  obtain ⟨sv, hsv, hf⟩ := h
  fin_cases hsv
  · simp only [SEVERITY_MAP, Int.reduceEq, reduceIte] at hf
    split at hf
    · exact absurd hf (by simp)
    · next hemp =>
        injection hf with h2
        subst h2
        exact ⟨rfl, 4, by simp [SEVERITY_MAP],
          by simpa [List.isEmpty_iff] using hemp⟩
  · simp only [SEVERITY_MAP, Int.reduceEq, reduceIte] at hf
    split at hf
    · exact absurd hf (by simp)
    · next hemp =>
        injection hf with h2
        subst h2
        exact ⟨rfl, 3, by simp [SEVERITY_MAP],
          by simpa [List.isEmpty_iff] using hemp⟩
  · simp only [SEVERITY_MAP, Int.reduceEq, reduceIte] at hf
    split at hf
    · exact absurd hf (by simp)
    · next hemp =>
        injection hf with h2
        subst h2
        exact ⟨rfl, 2, by simp [SEVERITY_MAP],
          by simpa [List.isEmpty_iff] using hemp⟩
  · simp only [SEVERITY_MAP, Int.reduceEq, reduceIte] at hf
    split at hf
    · exact absurd hf (by simp)
    · next hemp =>
        injection hf with h2
        subst h2
        exact ⟨rfl, 1, by simp [SEVERITY_MAP],
          by simpa [List.isEmpty_iff] using hemp⟩
  · simp only [SEVERITY_MAP, Int.reduceEq, reduceIte] at hf
    split at hf
    · exact absurd hf (by simp)
    · next hemp =>
        injection hf with h2
        subst h2
        exact ⟨rfl, 0, by simp [SEVERITY_MAP],
          by simpa [List.isEmpty_iff] using hemp⟩

/-- Inversion for `SEVERITY_MAP`. -/
theorem SEVERITY_MAP_some {sv : Int} {lbl : String}
    (h : SEVERITY_MAP sv = some lbl) :
    (sv = 0 ∧ lbl = "Info") ∨ (sv = 1 ∧ lbl = "Low")
    ∨ (sv = 2 ∧ lbl = "Medium") ∨ (sv = 3 ∧ lbl = "High")
    ∨ (sv = 4 ∧ lbl = "Critical") := by
  unfold SEVERITY_MAP at h
  split_ifs at h with h0 h1 h2 h3 h4
  · exact Or.inl ⟨h0, (Option.some.inj h).symm⟩
  · exact Or.inr (Or.inl ⟨h1, (Option.some.inj h).symm⟩)
  · exact Or.inr (Or.inr (Or.inl ⟨h2, (Option.some.inj h).symm⟩))
  · exact Or.inr (Or.inr (Or.inr (Or.inl ⟨h3, (Option.some.inj h).symm⟩)))
  · exact Or.inr (Or.inr (Or.inr (Or.inr ⟨h4, (Option.some.inj h).symm⟩)))

/-- Characterization of the names appearing in the produced workbook. -/
theorem write_excel_name_mem {now : String} {hosts : List HostRecord}
    {vulns : List VulnRecord} {compliance : List ComplianceRecord}
    {n : String}
    (h : n ∈ (write_excel now hosts vulns compliance).map Sheet.name) :
    n = "Home" ∨ (hosts.isEmpty = false ∧ n = "Host Summary")
    ∨ (vulns.isEmpty = false ∧ ∃ sh ∈ severitySheets vulns, sh.name = n)
    ∨ (compliance.isEmpty = false ∧ n = "Compliance") := by
  unfold write_excel at h
  rw [List.map_append, List.map_append, List.map_append] at h
  rcases List.mem_append.mp h with h123 | h4
  · rcases List.mem_append.mp h123 with h12 | h3
    · rcases List.mem_append.mp h12 with h1 | h2
      · left
        simpa using (List.mem_singleton.mp (by simpa using h1))
      · split at h2
        · simp at h2
        · next hne =>
            right; left
            refine ⟨by simpa using hne, ?_⟩
            simpa using (List.mem_singleton.mp (by simpa using h2))
    · split at h3
      · simp at h3
      · next hne =>
          right; right; left
          refine ⟨by simpa using hne, ?_⟩
          rw [List.mem_map] at h3
          obtain ⟨sh, hsh, hname⟩ := h3
          exact ⟨sh, hsh, hname⟩
  · split at h4
    · simp at h4
    · next hne =>
        right; right; right
        refine ⟨by simpa using hne, ?_⟩
        simpa using (List.mem_singleton.mp (by simpa using h4))

/-- C6: a severity level with zero matching findings yields no sheet
named with that severity's label, and with zero compliance records no
Compliance sheet is produced. -/
theorem empty_sheets_are_omitted (now : String) (hosts : List HostRecord)
    (vulns : List VulnRecord) (compliance : List ComplianceRecord) :
    (∀ (sv : Int) (lbl : String), SEVERITY_MAP sv = some lbl →
      vulns.filter (fun v => v.severity = sv) = [] →
      lbl ∉ (write_excel now hosts vulns compliance).map Sheet.name)
    ∧ (compliance = [] →
      "Compliance" ∉ (write_excel now hosts vulns compliance).map
        Sheet.name) := by
  constructor
  · intro sv lbl hmap hempty hmem
    rcases write_excel_name_mem hmem with hn | ⟨_, hn⟩ | ⟨_, sh, hsh, hname⟩
      | ⟨_, hn⟩
    · subst hn
      rcases SEVERITY_MAP_some hmap with ⟨_, h⟩ | ⟨_, h⟩ | ⟨_, h⟩ | ⟨_, h⟩
        | ⟨_, h⟩ <;> exact absurd h (by decide)
    · subst hn
      rcases SEVERITY_MAP_some hmap with ⟨_, h⟩ | ⟨_, h⟩ | ⟨_, h⟩ | ⟨_, h⟩
        | ⟨_, h⟩ <;> exact absurd h (by decide)
    · obtain ⟨_, sv', hsv', hfil⟩ := severitySheets_mem hsh
      rw [hname] at hsv'
      rcases SEVERITY_MAP_some hmap with ⟨rfl, rfl⟩ | ⟨rfl, rfl⟩
          | ⟨rfl, rfl⟩ | ⟨rfl, rfl⟩ | ⟨rfl, rfl⟩ <;>
        rcases SEVERITY_MAP_some hsv' with ⟨rfl, h'⟩ | ⟨rfl, h'⟩
          | ⟨rfl, h'⟩ | ⟨rfl, h'⟩ | ⟨rfl, h'⟩ <;>
        simp_all
    · subst hn
      rcases SEVERITY_MAP_some hmap with ⟨_, h⟩ | ⟨_, h⟩ | ⟨_, h⟩ | ⟨_, h⟩
        | ⟨_, h⟩ <;> exact absurd h (by decide)
  · intro hcomp hmem
    rcases write_excel_name_mem hmem with hn | ⟨_, hn⟩ | ⟨_, sh, hsh, hname⟩
      | ⟨hne, _⟩
    · exact absurd hn (by decide)
    · exact absurd hn (by decide)
    · obtain ⟨_, sv', hsv', _⟩ := severitySheets_mem hsh
      rw [hname] at hsv'
      rcases SEVERITY_MAP_some hsv' with ⟨_, h'⟩ | ⟨_, h'⟩ | ⟨_, h'⟩
        | ⟨_, h'⟩ | ⟨_, h'⟩ <;> exact absurd h' (by decide)
    · rw [hcomp] at hne
      simp at hne

/-- Witness for C6: one Critical finding, no Medium findings and no
compliance records. -/
theorem empty_sheets_are_omitted_witness :
    "Medium" ∉ (write_excel "t" [naHostRecord] [exVulnCritical] []).map
        Sheet.name
    ∧ "Compliance" ∉ (write_excel "t" [naHostRecord] [exVulnCritical]
        []).map Sheet.name := by
  have h := empty_sheets_are_omitted "t" [naHostRecord] [exVulnCritical] []
  exact ⟨h.1 2 "Medium" (by decide) (by decide), h.2 rfl⟩

/-- Characterization of the sheets appearing in the produced workbook. -/
theorem write_excel_sheet_mem {now : String} {hosts : List HostRecord}
    {vulns : List VulnRecord} {compliance : List ComplianceRecord}
    {sh : Sheet} (h : sh ∈ write_excel now hosts vulns compliance) :
    (sh.name = "Home" ∧ sh.columns = home_cols)
    ∨ (sh.name = "Host Summary" ∧ sh.columns = host_cols)
    ∨ sh ∈ severitySheets vulns
    ∨ (sh.name = "Compliance" ∧ sh.columns = compliance_cols) := by
  unfold write_excel at h
  rcases List.mem_append.mp h with h123 | h4
  · rcases List.mem_append.mp h123 with h12 | h3
    · rcases List.mem_append.mp h12 with h1 | h2
      · left
        rw [List.mem_singleton.mp h1]
        exact ⟨rfl, rfl⟩
      · split at h2
        · simp at h2
        · right; left
          rw [List.mem_singleton.mp h2]
          exact ⟨rfl, rfl⟩
    · split at h3
      · simp at h3
      · exact Or.inr (Or.inr (Or.inl h3))
  · split at h4
    · simp at h4
    · right; right; right
      rw [List.mem_singleton.mp h4]
      exact ⟨rfl, rfl⟩

/-- C7: the Host Summary sheet carries exactly the nine columns in the
fixed order, and every emitted severity sheet carries exactly the ten
display columns in the fixed order. -/
theorem sheet_columns_fixed (now : String) (hosts : List HostRecord)
    (vulns : List VulnRecord) (compliance : List ComplianceRecord) :
    ∀ sh ∈ write_excel now hosts vulns compliance,
      (sh.name = "Host Summary" →
        sh.columns = ["IP Address", "FQDN", "Operating System", "Critical",
          "High", "Medium", "Low", "Info", "Total"])
      ∧ ((sh.name = "Critical" ∨ sh.name = "High" ∨ sh.name = "Medium"
          ∨ sh.name = "Low" ∨ sh.name = "Info") →
        sh.columns = ["IP Address", "FQDN", "Port", "Protocol", "Service",
          "Plugin ID", "Plugin Name", "CVSS Base Score", "Description",
          "Solution"]) := by
  intro sh hsh
  rcases write_excel_sheet_mem hsh with ⟨hn, hc⟩ | ⟨hn, hc⟩ | hmem
    | ⟨hn, hc⟩
  · constructor
    · intro hns; rw [hn] at hns; exact absurd hns (by decide)
    · intro hns
      rcases hns with hx | hx | hx | hx | hx <;> rw [hn] at hx <;>
        exact absurd hx (by decide)
  · exact ⟨fun _ => hc, fun hns => by
      rcases hns with hx | hx | hx | hx | hx <;> rw [hn] at hx <;>
        exact absurd hx (by decide)⟩
  · obtain ⟨hcols, sv, hsv, _⟩ := severitySheets_mem hmem
    constructor
    · intro hns
      rw [hns] at hsv
      rcases SEVERITY_MAP_some hsv with ⟨_, h'⟩ | ⟨_, h'⟩ | ⟨_, h'⟩
        | ⟨_, h'⟩ | ⟨_, h'⟩ <;> exact absurd h' (by decide)
    · intro _; exact hcols
  · constructor
    · intro hns; rw [hn] at hns; exact absurd hns (by decide)
    · intro hns
      rcases hns with hx | hx | hx | hx | hx <;> rw [hn] at hx <;>
        exact absurd hx (by decide)

/-- Witness for C7 at a workbook containing a Host Summary sheet and a
Critical sheet. -/
theorem sheet_columns_fixed_witness :
    (exCriticalSheet.name = "Host Summary" →
      exCriticalSheet.columns = ["IP Address", "FQDN", "Operating System",
        "Critical", "High", "Medium", "Low", "Info", "Total"])
    ∧ ((exCriticalSheet.name = "Critical" ∨ exCriticalSheet.name = "High"
        ∨ exCriticalSheet.name = "Medium" ∨ exCriticalSheet.name = "Low"
        ∨ exCriticalSheet.name = "Info") →
      exCriticalSheet.columns = ["IP Address", "FQDN", "Port", "Protocol",
        "Service", "Plugin ID", "Plugin Name", "CVSS Base Score",
        "Description", "Solution"]) :=
  sheet_columns_fixed "t" [naHostRecord] [exVulnCritical] []
    exCriticalSheet (by decide)

/-- C10: a document whose Report container holds zero host elements
parses to three empty collections; the composer then omits the Host
Summary sheet entirely (the workbook consists of the Home sheet alone)
while the Home sheet still reports zero total hosts. -/
theorem zero_hosts_omits_host_summary (fp now : String) :
    parse_nessus_xml fp ⟨some []⟩ = Except.ok ([], [], [])
    ∧ "Host Summary" ∉ (write_excel now [] [] []).map Sheet.name
    ∧ write_excel now [] [] [] = [homeOnlySheet now] := by
  refine ⟨rfl, ?_, rfl⟩
  have hnames : (write_excel now [] [] []).map Sheet.name = ["Home"] := rfl
  rw [hnames]
  decide

/-- Witness for C10 at a concrete path and timestamp. -/
theorem zero_hosts_omits_host_summary_witness :
    parse_nessus_xml "scan.nessus" ⟨some []⟩ = Except.ok ([], [], [])
    ∧ "Host Summary" ∉ (write_excel "2026-10-12 00:00:00" [] [] []).map
        Sheet.name
    ∧ write_excel "2026-10-12 00:00:00" [] [] []
        = [homeOnlySheet "2026-10-12 00:00:00"] :=
  zero_hosts_omits_host_summary "scan.nessus" "2026-10-12 00:00:00"

end NessusParser
